import Mathlib

/-!
Verification of the howyoubeen knowledge-extraction-and-distribution pipeline.

This file gives a shallow embedding, in Lean 4, of the core of the
howyoubeen backend (Python), and proves/refutes the frozen claims about it:

* data model: `VisibilityCategory`, `LifeEvent` (src/backend/src/howyoubeen/data_models/models.py),
* the tolerant JSON-extraction ladder and the GitHub fallback
  (src/backend/src/howyoubeen/ai_engine/external_data_processor.py),
* the storage query `get_life_events_by_date_range` and `create_life_event`
  (src/backend/src/howyoubeen/storage/local_storage_service.py),
* the newsletter generator (src/backend/src/howyoubeen/ai_engine/newsletter_generator.py),
* the onboarding orchestrator step `process_user_data`
  (src/backend/src/howyoubeen/ai_engine/onboarding_service.py).

Python standard-library pieces the code leans on (`json.loads`,
`datetime.fromisoformat`, `datetime.isoformat`, `datetime - timedelta`,
`str.strip`, `str.lower`, substring tests, and the two regular expressions of
`_extract_json_from_response`) are embedded as executable Lean functions over
the subset of behaviour the code exercises; each such definition carries a doc
comment saying exactly which stdlib behaviour it models. LLM and network calls
are external collaborators: functions that consume an LLM response take the
response text (or its absence) as a parameter.
-/

/-! ## Characters and strings: the Python stdlib subset used by the code -/

/-- The whitespace characters of Python `str.strip()` with no argument:
space, tab, newline, carriage return, vertical tab, form feed. -/
def isPyWs (c : Char) : Bool :=
  c = ' ' || c = '\t' || c = '\n' || c = '\r' || c = '\x0b' || c = '\x0c'

/-- Python `str.strip()` on a character list. -/
def pyStripList (cs : List Char) : List Char :=
  ((cs.dropWhile isPyWs).reverse.dropWhile isPyWs).reverse

/-- Python `str.strip()`. -/
def pyStrip (s : String) : String :=
  String.mk (pyStripList s.toList)

/-- ASCII lower-casing of one character; models Python `str.lower()` on the
ASCII range, which is all the "no data" indicator phrases use. -/
def asciiLowerChar (c : Char) : Char :=
  if 'A' ≤ c && c ≤ 'Z' then Char.ofNat (c.toNat + 32) else c

/-- ASCII `str.lower()`. -/
def asciiLower (s : String) : String :=
  String.mk (s.toList.map asciiLowerChar)

/-- Whether list `sub` occurs contiguously inside `hay`; models the Python
substring test `sub in hay`. -/
def listHasSub (sub : List Char) : List Char → Bool
  | [] => sub.isEmpty
  | c :: cs => sub.isPrefixOf (c :: cs) || listHasSub sub cs

/-- Python substring containment `sub in s`. -/
def strHasSub (s sub : String) : Bool :=
  listHasSub sub.toList s.toList

/-! ## Dates: the subset of Python `datetime` used by the code -/

/-- A naive Python `datetime` (no microseconds, no timezone: the pipeline
only ever builds and compares naive second-resolution datetimes). -/
structure DateTime where
  year : Nat
  month : Nat
  day : Nat
  hour : Nat
  minute : Nat
  second : Nat
deriving DecidableEq, Repr

/-- Mixed-radix encoding of a datetime; on datetimes with in-range fields
(as produced by `fromisoformat`) its `Nat` order is exactly Python's
field-lexicographic `datetime` comparison. -/
def dtKey (d : DateTime) : Nat :=
  ((((d.year * 13 + d.month) * 32 + d.day) * 24 + d.hour) * 60 + d.minute) * 60 + d.second

/-- Python `datetime` `<=`. -/
def dtLe (a b : DateTime) : Bool := dtKey a ≤ dtKey b

/-- Gregorian leap-year rule, as used by `datetime`. -/
def isLeapYear (y : Nat) : Bool :=
  y % 4 = 0 && (y % 100 ≠ 0 || y % 400 = 0)

/-- Days in a month of the proleptic Gregorian calendar. -/
def daysInMonth (y m : Nat) : Nat :=
  if m = 2 then (if isLeapYear y then 29 else 28)
  else if m = 4 || m = 6 || m = 9 || m = 11 then 30
  else 31

def isDigitCh (c : Char) : Bool := '0' ≤ c && c ≤ '9'

def digitVal (c : Char) : Nat := c.toNat - 48

/-- Read exactly `n` decimal digits from the front, returning their value. -/
def takeDigits : Nat → List Char → Option (Nat × List Char)
  | 0, cs => some (0, cs)
  | _ + 1, [] => none
  | n + 1, c :: cs =>
    if isDigitCh c then
      match takeDigits n cs with
      | some (v, rest) => some (digitVal c * 10 ^ n + v, rest)
      | none => none
    else none

/-- Parse optional `:SS` seconds tail, then require end of input. -/
def parseIsoSeconds (h mi : Nat) (y mo d : Nat) : List Char → Option DateTime
  | [] => some ⟨y, mo, d, h, mi, 0⟩
  | ':' :: cs =>
    match takeDigits 2 cs with
    | some (s, []) => if s ≤ 59 then some ⟨y, mo, d, h, mi, s⟩ else none
    | _ => none
  | _ => none

/-- Parse the optional time part `(T| )HH:MM[:SS]`, then require end of input. -/
def parseIsoTime (y mo d : Nat) : List Char → Option DateTime
  | [] => some ⟨y, mo, d, 0, 0, 0⟩
  | sep :: cs =>
    if sep = 'T' || sep = ' ' then
      match takeDigits 2 cs with
      | some (h, ':' :: cs1) =>
        match takeDigits 2 cs1 with
        | some (mi, rest) =>
          if h ≤ 23 && mi ≤ 59 then parseIsoSeconds h mi y mo d rest else none
        | none => none
      | _ => none
    else none

/-- Models Python `datetime.fromisoformat` on the core grammar this codebase
produces and consumes: `YYYY-MM-DD`, optionally followed by `T` or a space and
`HH:MM[:SS]`, with real calendar validation. Fractional seconds and UTC
offsets (which never arise in this pipeline) are not modelled and fail to
parse. Returns `none` exactly where Python raises `ValueError`. -/
def parseISO (s : String) : Option DateTime :=
  match takeDigits 4 s.toList with
  | some (y, '-' :: cs1) =>
    match takeDigits 2 cs1 with
    | some (mo, '-' :: cs2) =>
      match takeDigits 2 cs2 with
      | some (d, rest) =>
        if 1 ≤ y && 1 ≤ mo && mo ≤ 12 && 1 ≤ d && d ≤ daysInMonth y mo then
          parseIsoTime y mo d rest
        else none
      | none => none
    | _ => none
  | _ => none

/-- Zero-pad a number to two digits. -/
def pad2 (n : Nat) : String :=
  if n < 10 then "0" ++ toString n else toString n

/-- Zero-pad a number to four digits. -/
def pad4 (n : Nat) : String :=
  if n < 10 then "000" ++ toString n
  else if n < 100 then "00" ++ toString n
  else if n < 1000 then "0" ++ toString n
  else toString n

/-- Models Python `datetime.isoformat()` for a naive datetime with zero
microseconds: `YYYY-MM-DDTHH:MM:SS`. -/
def isoformat (d : DateTime) : String :=
  pad4 d.year ++ "-" ++ pad2 d.month ++ "-" ++ pad2 d.day ++ "T" ++
    pad2 d.hour ++ ":" ++ pad2 d.minute ++ ":" ++ pad2 d.second

/-- Days since 1970-01-01 of a proleptic-Gregorian civil date
(the classic era-based conversion, as `datetime` arithmetic behaves). -/
def daysFromCivil (y m d : Nat) : Int :=
  let yi : Int := (y : Int) - (if m ≤ 2 then 1 else 0)
  let era : Int := yi.ediv 400
  let yoe : Int := yi - era * 400
  let mp : Int := ((m : Int) + 9).emod 12
  let doy : Int := (153 * mp + 2).ediv 5 + (d : Int) - 1
  let doe : Int := yoe * 365 + yoe.ediv 4 - yoe.ediv 100 + doy
  era * 146097 + doe - 719468

/-- Civil date from days since 1970-01-01 (inverse of `daysFromCivil`). -/
def civilFromDays (z : Int) : Nat × Nat × Nat :=
  let z1 : Int := z + 719468
  let era : Int := z1.ediv 146097
  let doe : Int := z1 - era * 146097
  let yoe : Int := (doe - doe.ediv 1460 + doe.ediv 36524 - doe.ediv 146096).ediv 365
  let y : Int := yoe + era * 400
  let doy : Int := doe - (365 * yoe + yoe.ediv 4 - yoe.ediv 100)
  let mp : Int := (5 * doy + 2).ediv 153
  let d : Int := doy - (153 * mp + 2).ediv 5 + 1
  let m : Int := mp + (if mp < 10 then 3 else -9)
  let yf : Int := y + (if m ≤ 2 then 1 else 0)
  (yf.toNat, m.toNat, d.toNat)

/-- Models Python `datetime - timedelta(hours=h)` on naive datetimes. -/
def dtSubHours (dt : DateTime) (h : Nat) : DateTime :=
  let total : Int := daysFromCivil dt.year dt.month dt.day * 86400 +
    (dt.hour : Int) * 3600 + (dt.minute : Int) * 60 + (dt.second : Int) - (h : Int) * 3600
  let z : Int := total.ediv 86400
  let sod : Int := total.emod 86400
  let ymd := civilFromDays z
  { year := ymd.1, month := ymd.2.1, day := ymd.2.2,
    hour := (sod.ediv 3600).toNat, minute := ((sod.emod 3600).ediv 60).toNat,
    second := (sod.emod 60).toNat }

/-! ## JSON values and `json.loads` -/

/-- A parsed JSON value as Python `json.loads` produces it. Numbers keep
their syntactic parts (integer part, fraction digits, exponent); objects keep
field order, with `jsonGet` implementing the last-key-wins semantics of dict
construction. `nan`/`inf` mirror the non-standard literals Python accepts. -/
inductive Json where
  | null : Json
  | bool (b : Bool) : Json
  | num (intPart : Int) (fracPart : List Nat) (expPart : Int) : Json
  | str (s : String) : Json
  | arr (items : List Json) : Json
  | obj (fields : List (String × Json)) : Json
  | nan : Json
  | inf (neg : Bool) : Json

/-- JSON whitespace accepted by Python `json.loads`: space, tab, newline,
carriage return. -/
def isJsonWs (c : Char) : Bool :=
  c = ' ' || c = '\t' || c = '\n' || c = '\r'

def skipJsonWs : List Char → List Char
  | [] => []
  | c :: cs => if isJsonWs c then skipJsonWs cs else c :: cs

/-- Parse one hex digit of a `\uXXXX` escape, either case. -/
def hexVal (c : Char) : Option Nat :=
  if isDigitCh c then some (digitVal c)
  else
    let lo := asciiLowerChar c
    if 'a' ≤ lo && lo ≤ 'f' then some (lo.toNat - 87) else none

def take4Hex : List Char → Option (Nat × List Char)
  | a :: b :: c :: d :: rest =>
    match hexVal a, hexVal b, hexVal c, hexVal d with
    | some va, some vb, some vc, some vd => some (((va * 16 + vb) * 16 + vc) * 16 + vd, rest)
    | _, _, _, _ => none
  | _ => none

/-- Turn a code unit (possibly from a `\uXXXX` escape) into a `Char`;
unpaired surrogates become U+FFFD (Lean `Char` cannot hold them — a
divergence from Python `str` that no claim touches). -/
def charOfCode (n : Nat) : Char :=
  if 0xD800 ≤ n && n ≤ 0xDFFF then Char.ofNat 0xFFFD else Char.ofNat n

/-- Parse the body of a JSON string (after the opening quote), strict mode:
unescaped control characters below U+0020 are rejected, as Python does. -/
def parseJsonStringBody (fuel : Nat) (cs : List Char) (acc : List Char) :
    Option (String × List Char) :=
  match fuel, cs with
  | 0, _ => none
  | _, [] => none
  | f + 1, c :: rest =>
    if c = '"' then some (String.mk acc.reverse, rest)
    else if c = '\\' then
      match rest with
      | [] => none
      | e :: rest1 =>
        if e = '"' then parseJsonStringBody f rest1 ('"' :: acc)
        else if e = '\\' then parseJsonStringBody f rest1 ('\\' :: acc)
        else if e = '/' then parseJsonStringBody f rest1 ('/' :: acc)
        else if e = 'b' then parseJsonStringBody f rest1 ('\x08' :: acc)
        else if e = 'f' then parseJsonStringBody f rest1 ('\x0c' :: acc)
        else if e = 'n' then parseJsonStringBody f rest1 ('\n' :: acc)
        else if e = 'r' then parseJsonStringBody f rest1 ('\r' :: acc)
        else if e = 't' then parseJsonStringBody f rest1 ('\t' :: acc)
        else if e = 'u' then
          match take4Hex rest1 with
          | some (v, rest2) => parseJsonStringBody f rest2 (charOfCode v :: acc)
          | none => none
        else none
    else if c.toNat < 0x20 then none
    else parseJsonStringBody f rest (c :: acc)

/-- Read a nonempty run of decimal digits. -/
def takeDigitRun (cs : List Char) : Option (List Nat × List Char) :=
  let run := cs.takeWhile isDigitCh
  if run.isEmpty then none else some (run.map digitVal, cs.dropWhile isDigitCh)

def digitsToNat (ds : List Nat) : Nat :=
  ds.foldl (fun acc d => acc * 10 + d) 0

/-- Parse a JSON number after an optional leading minus sign: integer part
with no leading zeros, optional fraction, optional exponent. -/
def parseJsonNumberTail (neg : Bool) (cs : List Char) : Option (Json × List Char) :=
  match takeDigitRun cs with
  | none => none
  | some (ids, rest0) =>
    if ids.length > 1 && ids.headD 0 = 0 then none
    else
      let iv : Int := if neg then -(digitsToNat ids : Int) else (digitsToNat ids : Int)
      let step1 : Option (List Nat × List Char) :=
        match rest0 with
        | '.' :: cs1 =>
          match takeDigitRun cs1 with
          | some (fds, rest1) => some (fds, rest1)
          | none => none
        | _ => some ([], rest0)
      match step1 with
      | none => none
      | some (fds, rest1) =>
        match rest1 with
        | 'e' :: cs2 =>
          match cs2 with
          | '+' :: cs3 =>
            match takeDigitRun cs3 with
            | some (eds, rest2) => some (.num iv fds (digitsToNat eds), rest2)
            | none => none
          | '-' :: cs3 =>
            match takeDigitRun cs3 with
            | some (eds, rest2) => some (.num iv fds (-(digitsToNat eds : Int)), rest2)
            | none => none
          | _ =>
            match takeDigitRun cs2 with
            | some (eds, rest2) => some (.num iv fds (digitsToNat eds), rest2)
            | none => none
        | 'E' :: cs2 =>
          match cs2 with
          | '+' :: cs3 =>
            match takeDigitRun cs3 with
            | some (eds, rest2) => some (.num iv fds (digitsToNat eds), rest2)
            | none => none
          | '-' :: cs3 =>
            match takeDigitRun cs3 with
            | some (eds, rest2) => some (.num iv fds (-(digitsToNat eds : Int)), rest2)
            | none => none
          | _ =>
            match takeDigitRun cs2 with
            | some (eds, rest2) => some (.num iv fds (digitsToNat eds), rest2)
            | none => none
        | _ => some (.num iv fds 0, rest1)

mutual

/-- Recursive-descent JSON value parser (fuel-indexed; callers supply fuel
larger than the input length). Models Python `json.loads` grammar including
the non-standard `NaN`, `Infinity`, `-Infinity` literals it accepts. -/
def parseJsonValue (fuel : Nat) (cs : List Char) : Option (Json × List Char) :=
  match fuel with
  | 0 => none
  | f + 1 =>
    match skipJsonWs cs with
    | [] => none
    | c :: rest =>
      if c = '{' then
        match skipJsonWs rest with
        | '}' :: rest1 => some (.obj [], rest1)
        | rest1 => parseJsonObjItems f rest1 []
      else if c = '[' then
        match skipJsonWs rest with
        | ']' :: rest1 => some (.arr [], rest1)
        | rest1 => parseJsonArrItems f rest1 []
      else if c = '"' then
        match parseJsonStringBody (rest.length + 1) rest [] with
        | some (s, rest1) => some (.str s, rest1)
        | none => none
      else if c = 't' then
        match rest with
        | 'r' :: 'u' :: 'e' :: rest1 => some (.bool true, rest1)
        | _ => none
      else if c = 'f' then
        match rest with
        | 'a' :: 'l' :: 's' :: 'e' :: rest1 => some (.bool false, rest1)
        | _ => none
      else if c = 'n' then
        match rest with
        | 'u' :: 'l' :: 'l' :: rest1 => some (.null, rest1)
        | _ => none
      else if c = 'N' then
        match rest with
        | 'a' :: 'N' :: rest1 => some (.nan, rest1)
        | _ => none
      else if c = 'I' then
        match rest with
        | 'n' :: 'f' :: 'i' :: 'n' :: 'i' :: 't' :: 'y' :: rest1 => some (.inf false, rest1)
        | _ => none
      else if c = '-' then
        match rest with
        | 'I' :: 'n' :: 'f' :: 'i' :: 'n' :: 'i' :: 't' :: 'y' :: rest1 =>
          some (.inf true, rest1)
        | _ => parseJsonNumberTail true rest
      else if isDigitCh c then
        parseJsonNumberTail false (c :: rest)
      else none

/-- Parse array items after the first non-`]` character. -/
def parseJsonArrItems (fuel : Nat) (cs : List Char) (acc : List Json) :
    Option (Json × List Char) :=
  match fuel with
  | 0 => none
  | f + 1 =>
    match parseJsonValue f cs with
    | none => none
    | some (v, rest) =>
      match skipJsonWs rest with
      | ',' :: rest1 => parseJsonArrItems f rest1 (v :: acc)
      | ']' :: rest1 => some (.arr (v :: acc).reverse, rest1)
      | _ => none

/-- Parse object members after the first non-`}` character. -/
def parseJsonObjItems (fuel : Nat) (cs : List Char) (acc : List (String × Json)) :
    Option (Json × List Char) :=
  match fuel with
  | 0 => none
  | f + 1 =>
    match skipJsonWs cs with
    | '"' :: rest =>
      match parseJsonStringBody (rest.length + 1) rest [] with
      | none => none
      | some (k, rest1) =>
        match skipJsonWs rest1 with
        | ':' :: rest2 =>
          match parseJsonValue f rest2 with
          | none => none
          | some (v, rest3) =>
            match skipJsonWs rest3 with
            | ',' :: rest4 => parseJsonObjItems f rest4 ((k, v) :: acc)
            | '}' :: rest4 => some (.obj ((k, v) :: acc).reverse, rest4)
            | _ => none
        | _ => none
    | _ => none

end

/-- Models Python `json.loads`: parse the whole string as one JSON value,
allowing surrounding whitespace, rejecting trailing data. -/
def jsonParse (s : String) : Option Json :=
  let cs := s.toList
  match parseJsonValue (cs.length + 1) cs with
  | some (v, rest) => if (skipJsonWs rest).isEmpty then some v else none
  | none => none

/-- Dict lookup on a parsed JSON object: last occurrence of the key wins,
matching Python dict construction from duplicate keys. Returns `none` for
non-objects or missing keys. -/
def jsonGet (j : Json) (k : String) : Option Json :=
  match j with
  | .obj fields => (fields.reverse.find? (fun kv => kv.1 = k)).map (fun kv => kv.2)
  | _ => none

/-- Key membership `k in d` on a parsed JSON object. -/
def jsonHasKey (j : Json) (k : String) : Bool :=
  match j with
  | .obj fields => fields.any (fun kv => kv.1 = k)
  | _ => false

/-! ## The two regular expressions of `_extract_json_from_response` -/

/-- `\s` of Python `re`: space, tab, newline, carriage return, vertical tab,
form feed (same set as `isPyWs`). -/
def isReWs (c : Char) : Bool := isPyWs c

/-- Split a character list at the first `]`, returning the part before it and
the part after it; `none` when no `]` occurs. This is how the non-greedy
`.*?` of both regexes extends up to each candidate closing bracket. -/
def splitAtFirstClose : List Char → Option (List Char × List Char)
  | [] => none
  | c :: rest =>
    if c = ']' then some ([], rest)
    else (splitAtFirstClose rest).map (fun p => (c :: p.1, p.2))

/-- Scan, inside a fenced block, for the first `]` whose following text is
`\s*` then three backticks: the backtracking behaviour of the non-greedy
group `(\[.*?\])` followed by `\s*` and the closing fence. Returns the group
content (between the brackets) and the remainder after the closing fence. -/
def fencedFindClose (fuel : Nat) (cs : List Char) (acc : List Char) :
    Option (List Char × List Char) :=
  match fuel, cs with
  | 0, _ => none
  | _, [] => none
  | f + 1, c :: rest =>
    if c = ']' then
      let afterWs := rest.dropWhile isReWs
      if "```".toList.isPrefixOf afterWs then
        some (acc.reverse, afterWs.drop 3)
      else fencedFindClose f rest (c :: acc)
    else fencedFindClose f rest (c :: acc)

/-- Attempt a fenced-block match right after an opening triple backtick:
optional `json` (case-insensitive), `\s*`, then the captured `(\[.*?\])`,
`\s*`, closing fence. Returns the captured group and the remainder after the
whole match. -/
def fencedTryAt (cs : List Char) : Option (List Char × List Char) :=
  let cs1 := if ((cs.take 4).map asciiLowerChar) = "json".toList then cs.drop 4 else cs
  match cs1.dropWhile isReWs with
  | '[' :: tail =>
    match fencedFindClose (tail.length + 1) tail [] with
    | some (inner, rest) => some ('[' :: inner ++ [']'], rest)
    | none => none
  | _ => none

/-- Models `re.findall` of the pattern used for fenced code blocks in
`_extract_json_from_response` (line 122): non-overlapping left-to-right
matches, each yielding the captured bracketed group. -/
def fencedFindAll (fuel : Nat) (cs : List Char) : List (List Char) :=
  match fuel, cs with
  | 0, _ => []
  | _, [] => []
  | f + 1, c :: rest =>
    if "```".toList.isPrefixOf (c :: rest) then
      match fencedTryAt ((c :: rest).drop 3) with
      | some (grp, after) => grp :: fencedFindAll f after
      | none => fencedFindAll f rest
    else fencedFindAll f rest

/-- Models `re.findall` of the non-greedy bracket pattern `(\[.*?\])` with
`re.DOTALL` (line 131): each `[` not consumed by a previous match captures up
to the first following `]`. -/
def bracketFindAll (fuel : Nat) (cs : List Char) : List (List Char) :=
  match fuel, cs with
  | 0, _ => []
  | _, [] => []
  | f + 1, c :: rest =>
    if c = '[' then
      match splitAtFirstClose rest with
      | some (inner, after) => ('[' :: inner ++ [']']) :: bracketFindAll f after
      | none => []
    else bracketFindAll f rest

/-! ## The tolerant extraction ladder (`_extract_json_from_response`) -/

/-- The fixed "no data" indicator phrases (lines 142-149). -/
def noDataIndicators : List String :=
  ["no specific dates", "no explicit dates", "cannot extract",
   "no dated events", "empty array", "no clear dates"]

/-- Whether the lower-cased response contains one of the indicator phrases
(lines 151-154). -/
def hasNoDataIndicator (response : String) : Bool :=
  noDataIndicators.any (fun ind => strHasSub (asciiLower response) ind)

/-- Ladder step b (lines 122-128): parse the first fenced code block whose
stripped content parses as JSON. -/
def fencedStep (response : String) : Option Json :=
  (fencedFindAll (response.toList.length + 1) response.toList).findSome?
    (fun b => jsonParse (pyStrip (String.mk b)))

/-- Ladder step c (lines 131-139): parse the first bracket-delimited
substring whose stripped content parses as a JSON list. -/
def bracketStep (response : String) : Option Json :=
  (bracketFindAll (response.toList.length + 1) response.toList).findSome?
    (fun p =>
      match jsonParse (pyStrip (String.mk p)) with
      | some (.arr xs) => some (.arr xs)
      | _ => none)

/-- `_extract_json_from_response` (external_data_processor.py lines 99-157):
empty/whitespace responses give an empty list; then the whole-text parse,
the fenced-block scan, the bracket scan, and the "no data" phrase check are
tried in order; `none` models Python returning `None` for unusable text. -/
def extractJsonFromResponse (response : String) : Option Json :=
  if (pyStrip response).isEmpty then some (.arr [])
  else
    match jsonParse (pyStrip response) with
    | some v => some v
    | none =>
      match fencedStep response with
      | some v => some v
      | none =>
        match bracketStep response with
        | some v => some v
        | none => if hasNoDataIndicator response then some (.arr []) else none

/-! ## Data model (data_models/models.py, data_models/enums.py) -/

/-- `VisibilityCategoryType` (enums.py lines 4-12). `private` is a Lean
keyword, hence the trailing underscore; `visibilityTypeValue` gives the
string value of each member. -/
inductive VisibilityCategoryType where
  | close_family
  | best_friends
  | good_friends
  | acquaintances
  | public
  | private_
  | custom
deriving DecidableEq, Repr

/-- The `str` value of each enum member. -/
def visibilityTypeValue : VisibilityCategoryType → String
  | .close_family => "close_family"
  | .best_friends => "best_friends"
  | .good_friends => "good_friends"
  | .acquaintances => "acquaintances"
  | .public => "public"
  | .private_ => "private"
  | .custom => "custom"

/-- Pydantic enum validation: which strings are valid
`VisibilityCategoryType` values. -/
def visibilityTypeOfString (s : String) : Option VisibilityCategoryType :=
  if s = "close_family" then some .close_family
  else if s = "best_friends" then some .best_friends
  else if s = "good_friends" then some .good_friends
  else if s = "acquaintances" then some .acquaintances
  else if s = "public" then some .public
  else if s = "private" then some .private_
  else if s = "custom" then some .custom
  else none

/-- `VisibilityCategory` (models.py lines 15-23): a type, an optional name,
and a list of further categories that may also see the content. The model
declares no validator of any kind beyond the field types. -/
inductive VisibilityCategory where
  | mk (type : VisibilityCategoryType) (name : Option String)
       (also_visible : List VisibilityCategory)

def VisibilityCategory.type : VisibilityCategory → VisibilityCategoryType
  | .mk t _ _ => t

def VisibilityCategory.name : VisibilityCategory → Option String
  | .mk _ n _ => n

def VisibilityCategory.also_visible : VisibilityCategory → List VisibilityCategory
  | .mk _ _ a => a

/-- Pydantic construction of a `VisibilityCategory` from a type string and an
optional name: the only validation the model performs is that the type string
is a member of the enum (models.py declares no validator relating
`type = custom` to `name`). -/
def mkVisibilityCategory (typeStr : String) (name : Option String)
    (also_visible : List VisibilityCategory) : Except String VisibilityCategory :=
  match visibilityTypeOfString typeStr with
  | some t => .ok (.mk t name also_visible)
  | none => .error "validation error: input is not a valid VisibilityCategoryType"

/-- `LifeEvent` (models.py lines 46-55), restricted to the fields the claims
touch; `event_id`, `created_at`, `updated_at` are uuid/now effects supplied
by the caller where they matter. -/
structure LifeEvent where
  visibility : VisibilityCategory
  start_date : DateTime
  end_date : Option DateTime := none
  summary : String

/-- `LifeFact` (models.py lines 58-67), restricted to the fields the claims
touch. -/
structure LifeFact where
  visibility : VisibilityCategory
  summary : String
  category : Option String := none

/-- The default visibility used by every extraction call site when the
configured pool is empty (external_data_processor.py lines 328-331 and
siblings): the first category of the pool, else a hard-coded
`GOOD_FRIENDS` category named "Friends". -/
def defaultVisibility (visibility_config : List VisibilityCategory) : VisibilityCategory :=
  visibility_config.headD (.mk .good_friends (some "Friends") [])

/-! ## Candidate conversion (the per-item loops of
`_generate_github_life_events` lines 333-349 and
`_generate_website_life_events` lines 573-589) -/

/-- One loop iteration: the item must be а dict containing both
`start_date` and `summary` keys (line 336 / 576), its `start_date` must be a
string parsing under `fromisoformat` (TypeError and ValueError are caught and
skipped, lines 347 / 587), and its `summary` must be a string (a pydantic
`ValidationError` is a `ValueError`, caught by the same handler). Returns the
constructed `LifeEvent`, or `none` when the item is skipped. -/
def candidateToLifeEvent (vis : VisibilityCategory) (j : Json) : Option LifeEvent :=
  match j with
  | .obj fields =>
    if jsonHasKey (.obj fields) "start_date" && jsonHasKey (.obj fields) "summary" then
      match jsonGet (.obj fields) "start_date" with
      | some (.str sd) =>
        match parseISO sd with
        | some d =>
          match jsonGet (.obj fields) "summary" with
          | some (.str sm) =>
            some { visibility := vis, start_date := d, end_date := none, summary := sm }
          | _ => none
        | none => none
      | _ => none
    else none
  | _ => none

/-- The accumulation loop over parsed candidates: each valid item is appended
to the result, each invalid one is skipped with `continue`. -/
def lifeEventsFromJson (vis : VisibilityCategory) (items : List Json) : List LifeEvent :=
  items.foldl
    (fun acc j =>
      match candidateToLifeEvent vis j with
      | some e => acc ++ [e]
      | none => acc)
    []

/-- `_generate_github_life_events` (lines 260-359) after the LLM call, which
is taken as the `response` parameter. `None` from the ladder returns `[]`
(lines 316-318); an empty array returns `[]` (lines 323-325); a non-array
JSON value leads to `[]` as well (iterating it yields no valid dict items, or
raises and is caught by the handler at line 354 which returns `[]`); an array
is converted item by item. -/
def generateGithubLifeEvents (response : String)
    (visibility_config : List VisibilityCategory) : List LifeEvent :=
  match extractJsonFromResponse response with
  | none => []
  | some (.arr items) =>
    if items.isEmpty then []
    else lifeEventsFromJson (defaultVisibility visibility_config) items
  | some _ => []

/-- `_generate_website_life_events` (lines 502-599) after the LLM call: the
post-response logic is the same pipeline as the GitHub one. -/
def generateWebsiteLifeEvents (response : String)
    (visibility_config : List VisibilityCategory) : List LifeEvent :=
  match extractJsonFromResponse response with
  | none => []
  | some (.arr items) =>
    if items.isEmpty then []
    else lifeEventsFromJson (defaultVisibility visibility_config) items
  | some _ => []

/-! ## The deterministic GitHub fallback
(`_create_fallback_github_entries`, lines 688-717) -/

/-- The slice of raw GitHub data the fallback reads:
`commit_activity.commits_last_30_days`, the keys of
`commit_activity.languages_used`, `summary.total_repositories`,
`profile.location`. -/
structure GithubCommitActivity where
  commits_last_30_days : Nat
  languages_used : List String

structure GithubProfileInfo where
  location : Option String

structure GithubSummaryInfo where
  total_repositories : Nat

structure GithubData where
  profile : GithubProfileInfo
  commit_activity : GithubCommitActivity
  summaryInfo : GithubSummaryInfo

/-- Python `", ".join(xs)`. -/
def commaJoin (xs : List String) : String := String.intercalate ", " xs

/-- `_create_fallback_github_entries` (lines 688-717): at most two events
derived purely from numeric signals — one from a positive 30-day commit
count, one from up to three used languages. `now` is the wall clock read by
`datetime.now()`. -/
def createFallbackGithubEntries (github_data : GithubData) (now : DateTime)
    (visibility_config : List VisibilityCategory) : List LifeEvent :=
  let default_visibility := defaultVisibility visibility_config
  let activity := github_data.commit_activity
  let commitEntries : List LifeEvent :=
    if activity.commits_last_30_days > 0 then
      [{ visibility := default_visibility,
         start_date := dtSubHours now (15 * 24),
         summary := "Been actively coding lately with " ++
           toString activity.commits_last_30_days ++
           " commits in the past month. Working on some interesting projects!" }]
    else []
  let languages := activity.languages_used.take 3
  let languageEntries : List LifeEvent :=
    if languages.isEmpty then []
    else
      [{ visibility := default_visibility,
         start_date := dtSubHours now (30 * 24),
         summary := "Expanding my skills in " ++ commaJoin languages ++
           " through various coding projects." }]
  commitEntries ++ languageEntries

/-! ## Spec-modelled visibility resolution -/

mutual

/-- Modelled from the spec: the recursive `is_visible_to` resolution of
spec §4.1 ("returns true iff `entry_tier.tier ∈ viewer_tiers` OR any tier in
`entry_tier.also_visible` (recursively, with cycle protection) satisfies the
same test"). No function of this kind exists in the source; the only
visibility filter the claims' query applies is a top-level membership test.
Cycle protection is vacuous here because `VisibilityCategory` values are
finite trees. -/
def specIsVisibleTo : VisibilityCategory → List VisibilityCategoryType → Bool
  | .mk t _ also, viewer_tiers =>
    viewer_tiers.contains t || specAnyVisibleTo also viewer_tiers

/-- Helper of `specIsVisibleTo`: whether any category of the
`also_visible` list resolves to visible. -/
def specAnyVisibleTo : List VisibilityCategory → List VisibilityCategoryType → Bool
  | [], _ => false
  | c :: cs, viewer_tiers =>
    specIsVisibleTo c viewer_tiers || specAnyVisibleTo cs viewer_tiers

end

/-! ## Storage: `get_life_events_by_date_range` and `create_life_event`
(local_storage_service.py) -/

/-- `datetime.fromisoformat(entry.get("start_date"))` guarded by the
`except (ValueError, TypeError)` at lines 625-628: a missing key or non-string
value raises `TypeError`, an unparsable string raises `ValueError`; both are
modelled as `none`. -/
def entryStartDate (entry : Json) : Option DateTime :=
  match jsonGet entry "start_date" with
  | some (.str s) => parseISO s
  | _ => none

/-- Lines 635-641: the visibility value checked by the query — for a dict it
is `visibility.get("type")`, otherwise the raw value itself (`None` when the
key is absent). -/
def entryVisibilityType (entry : Json) : Option Json :=
  match jsonGet entry "visibility" with
  | some (.obj fields) => jsonGet (.obj fields) "type"
  | some v => some v
  | none => none

/-- Line 643: `visibility_type not in visibility_levels`, negated — a
non-string (or absent) visibility type never equals a member of the
string list. -/
def visTypeInLevels (vt : Option Json) (levels : List String) : Bool :=
  match vt with
  | some (.str s) => levels.contains s
  | _ => false

/-- The per-entry selection test of the loop at lines 623-646: the start date
must parse, lie in `[start_date, end_date]`, and — when `visibility_levels`
is truthy, i.e. nonempty — the top-level visibility type must be one of the
requested levels. `also_visible` is never consulted. -/
def matchesQuery (s e : DateTime) (levels : List String) (entry : Json) : Bool :=
  match entryStartDate entry with
  | none => false
  | some d =>
    dtLe s d && dtLe d e &&
      (levels.isEmpty || visTypeInLevels (entryVisibilityType entry) levels)

/-- The sort key of line 650: `datetime.fromisoformat(x.get("start_date"))`.
Every entry reaching the sort has a parsing date, so the default is inert. -/
def sortKeyOfEntry (entry : Json) : Nat :=
  ((entryStartDate entry).map dtKey).getD 0

instance sortKeyRevDecidable :
    DecidableRel (fun a b : Json => sortKeyOfEntry b ≤ sortKeyOfEntry a) :=
  fun _ _ => Nat.decLe _ _

/-- `get_life_events_by_date_range` (lines 612-654) on one user's stored
event list: filter by parsed date window and (optionally) top-level
visibility level, then stable-sort by start date, most recent first
(`list.sort(key=..., reverse=True)` is a stable sort; `List.insertionSort`
with the reflexive "key not smaller" relation realizes exactly that order). -/
def getLifeEventsByDateRange (events : List Json) (s e : DateTime)
    (levels : List String) : List Json :=
  (events.filter (matchesQuery s e levels)).insertionSort
    (fun a b => sortKeyOfEntry b ≤ sortKeyOfEntry a)

/-- The record written by `create_life_event` (lines 359-380). -/
structure StoredLifeEvent where
  event_id : String
  user_id : String
  summary : String
  start_date : String
  end_date : Option String
  visibility : String
  created_at : String
  updated_at : String

/-- Python `dict.get(k)` on a string-valued dict, modelled as an association
list with distinct keys (as all call sites construct them literally). -/
def dictGet (d : List (String × String)) (k : String) : Option String :=
  (d.find? (fun kv => kv.1 = k)).map (fun kv => kv.2)

/-- `create_life_event` (lines 359-380): requires a truthy `user_id` and a
present `summary` (a missing `summary` raises `KeyError`); `start_date`
defaults to `datetime.now().isoformat()` when the key is absent — the stored
record never reads any `date` key. `event_id` is the generated uuid and
`now` the wall clock, both passed in. -/
def createLifeEvent (event_data : List (String × String)) (event_id : String)
    (now : DateTime) : Except String StoredLifeEvent :=
  match dictGet event_data "user_id" with
  | none => .error "user_id is required for life event"
  | some uid =>
    if uid.isEmpty then .error "user_id is required for life event"
    else
      match dictGet event_data "summary" with
      | none => .error "KeyError: summary"
      | some summary =>
        .ok { event_id := event_id,
              user_id := uid,
              summary := summary,
              start_date := (dictGet event_data "start_date").getD (isoformat now),
              end_date := dictGet event_data "end_date",
              visibility := (dictGet event_data "visibility").getD "friends_only",
              created_at := isoformat now,
              updated_at := isoformat now }

/-! ## Newsletter generation (newsletter_generator.py) -/

/-- The user dict fields the generator reads; `none` models an absent key. -/
structure UserData where
  full_name : Option String
  bio : Option String

/-- `NewsletterConfig` (models.py lines 136-142). -/
structure NewsletterConfig where
  instructions : Option String
  periodicity : Nat
  start_date : Option DateTime
  visibility : List VisibilityCategory
  name : String

/-- `NewsletterGenerationResult` (newsletter_generator.py lines 36-42),
without the free-form `generation_summary` dict (no claim touches it). -/
structure NewsletterGenerationResult where
  success : Bool
  content : Option String
  error_message : Option String
  events_count : Nat

/-- English month name, for `strftime("%B %d, %Y")`. -/
def monthName : Nat → String
  | 1 => "January" | 2 => "February" | 3 => "March" | 4 => "April"
  | 5 => "May" | 6 => "June" | 7 => "July" | 8 => "August"
  | 9 => "September" | 10 => "October" | 11 => "November" | 12 => "December"
  | _ => ""

/-- Python `dt.strftime("%B %d, %Y")`. -/
def strftimeBdY (d : DateTime) : String :=
  monthName d.month ++ " " ++ pad2 d.day ++ ", " ++ toString d.year

/-- Python `str()` applied to a JSON-derived value inside an f-string.
Scalar cases are exact; the container and float renderings are simplified
placeholders — in this pipeline the displayed fields (`start_date`,
`summary`) are always strings, and no claim depends on the other cases. -/
def pyStr (fuel : Nat) (j : Json) : String :=
  match fuel, j with
  | _, .null => "None"
  | _, .bool b => if b then "True" else "False"
  | _, .str s => s
  | _, .num i [] 0 => toString i
  | _, .num i f e => toString i ++ "." ++ String.join (f.map toString) ++ "e" ++ toString e
  | _, .nan => "nan"
  | _, .inf b => if b then "-inf" else "inf"
  | 0, _ => ""
  | fl + 1, .arr xs => "[" ++ String.intercalate ", " (xs.map (pyStr fl)) ++ "]"
  | fl + 1, .obj fs =>
    "\x7b" ++ String.intercalate ", " (fs.map (fun kv => kv.1 ++ ": " ++ pyStr fl kv.2)) ++ "\x7d"

/-- `event.get('start_date', 'Unknown date')` rendered by `str()`. -/
def eventDateText (event : Json) : String :=
  match jsonGet event "start_date" with
  | some v => pyStr 16 v
  | none => "Unknown date"

/-- `event.get('summary', d)` rendered by `str()`. -/
def eventSummaryText (event : Json) (d : String) : String :=
  match jsonGet event "summary" with
  | some v => pyStr 16 v
  | none => d

/-- The `events_text` block of the LLM prompt (lines 165-172): one
`- <date>: <summary>` line per selected event, in the given order, or the
fixed no-events sentence. -/
def eventsText (life_events : List Json) : String :=
  if life_events.isEmpty then "No life events found in this time period."
  else
    String.intercalate "\n"
      (life_events.map (fun event =>
        "- " ++ eventDateText event ++ ": " ++ eventSummaryText event "No summary available"))

/-- The fixed system prompt of `_generate_content_with_llm`
(lines 175-187). -/
def newsletterSystemPrompt : String :=
  "You are an AI assistant that creates personalized newsletters. \nYou will be given a user\x27s life events and specific instructions for how to format and present them.\n\nYour goal is to create an engaging, personalized newsletter in markdown format that follows the user\x27s instructions.\n\nKey guidelines:\n- Use markdown formatting (headers, bold, italic, lists, etc.)\n- Be personal and engaging in tone\n- Follow the user\x27s specific instructions carefully\n- If no events are provided, create a brief, friendly message acknowledging the quiet period\n- Keep the newsletter focused and readable\n- Include the date range being covered\n"

/-- The user prompt of `_generate_content_with_llm` (lines 189-201);
`newsletter_config.instructions or '...'` treats an empty string as absent. -/
def newsletterUserPrompt (user_data : UserData) (life_events : List Json)
    (cfg : NewsletterConfig) (date_range_text : String) : String :=
  let instructions :=
    match cfg.instructions with
    | some s =>
      if s.isEmpty then "Create a friendly, engaging newsletter highlighting key life events."
      else s
    | none => "Create a friendly, engaging newsletter highlighting key life events."
  "Please create a newsletter for " ++ user_data.full_name.getD "the user" ++
    " covering the period from " ++ date_range_text ++ ".\n\nUser Instructions: " ++
    instructions ++ "\n\nLife Events in this period:\n" ++ eventsText life_events ++
    "\n\nUser Context:\n- Name: " ++ user_data.full_name.getD "Unknown" ++
    "\n- Bio: " ++ user_data.bio.getD "No bio available" ++
    "\n- Newsletter Name: " ++ cfg.name ++
    "\n\nPlease generate a well-formatted markdown newsletter following the user\x27s instructions. If there are no life events, create a brief, friendly message acknowledging the quiet period. This is from the user to their friends, frame it in the first person from the user\x27s perspective, and be friendly and engaging."

/-- `_create_fallback_newsletter` (lines 228-257): fixed Markdown template
over the same selected event list; `newsletter_config.name or 'Life Update'`
treats an empty name as absent. -/
def createFallbackNewsletter (user_data : UserData) (life_events : List Json)
    (cfg : NewsletterConfig) (date_range_text : String) : String :=
  let name := user_data.full_name.getD "Friend"
  let newsletter_name := if cfg.name.isEmpty then "Life Update" else cfg.name
  let header := "# " ++ newsletter_name ++ "\n\n## Update from " ++ name ++
    "\n*Period: " ++ date_range_text ++ "*\n\n"
  let body :=
    if life_events.isEmpty then
      "## A Quiet Period\n\nNo major events to report during this period, but " ++
        name ++ " is still here and doing well!\n\n"
    else
      "## Recent Happenings\n\n" ++
        String.join (life_events.map (fun event =>
          "**" ++ eventDateText event ++ "**: " ++
            eventSummaryText event "No details available" ++ "\n\n"))
  header ++ body ++
    "---\n\n*This newsletter was generated automatically. If you have any questions, please reach out!*\n"

/-- `_generate_content_with_llm` (lines 151-226): the LLM completion call is
the external collaborator, modelled as an oracle from the (system, user)
prompt pair to `some content` for a successful completion (whose content is
stripped, line 216) or `none` for a raised exception, answered by the
fallback template over the very same `life_events` list (lines 221-226). -/
def generateContentWithLlm (user_data : UserData) (life_events : List Json)
    (cfg : NewsletterConfig) (s e : DateTime)
    (llm : String → String → Option String) : String :=
  let date_range_text := strftimeBdY s ++ " to " ++ strftimeBdY e
  match llm newsletterSystemPrompt
      (newsletterUserPrompt user_data life_events cfg date_range_text) with
  | some c => pyStrip c
  | none => createFallbackNewsletter user_data life_events cfg date_range_text

/-- Association lookup for the user table (`get_user`). -/
def lookupUser (users : List (String × UserData)) (uid : String) : Option UserData :=
  (users.find? (fun kv => kv.1 = uid)).map (fun kv => kv.2)

/-- `generate_newsletter` (lines 64-149) over a pure storage snapshot:
`users` is the user table, `events` the stored life-event list of `user_id`,
`now` the wall clock, `llm` the outcome of the completion call. The window is
`[now - periodicity hours, now]`; the visibility filter is the list of
configured tier values; a missing user is the `success=False` branch
(lines 113-118); storage itself is total, so no other failure branch of the
surrounding `except` is reachable in the model. -/
def generateNewsletter (users : List (String × UserData)) (events : List Json)
    (user_id : String) (cfg : NewsletterConfig) (now : DateTime)
    (llm : String → String → Option String) : NewsletterGenerationResult :=
  let end_date := now
  let start_date := dtSubHours now cfg.periodicity
  let visibility_levels := cfg.visibility.map (fun vc => visibilityTypeValue vc.type)
  let life_events := getLifeEventsByDateRange events start_date end_date visibility_levels
  match lookupUser users user_id with
  | none =>
    { success := false, content := none,
      error_message := some "User not found", events_count := 0 }
  | some user_data =>
    { success := true,
      content := some (generateContentWithLlm user_data life_events cfg
        start_date end_date llm),
      error_message := none,
      events_count := life_events.length }

/-! ## Onboarding: `process_user_data` (onboarding_service.py lines 201-349) -/

/-- The slice of an onboarding session the orchestrator reads: the session
owner id (absent when the session blob lacks one) and the current step. -/
structure OnboardingSession where
  user_id : Option String
  step : String

/-- The record returned by `storage.create_user` as `process_user_data`
uses it. -/
structure CreatedUser where
  id : String
  username : String
  full_name : String
  bio : String

/-- The outcome of each fallible collaborator call made inside the `try`
block of `process_user_data`, in program order. `Except.error m` models the
call raising an exception with message `m`; every such exception is caught by
the handler at lines 347-349. Internally-caught steps (document processing,
which swallows its own errors) do not appear. -/
structure ProcessEffects where
  setStepProcessing : Except String Unit
  createUser : Except String CreatedUser
  setOnboardingUserId : Except String Unit
  processSources : Except String Unit
  generateFromDocs : Except String (List LifeEvent × List LifeFact)
  convertExternal : Except String (List LifeEvent × List LifeFact)
  storeEntries : Except String Unit
  generateAiSummary : Except String String
  markUserCompleted : Except String Unit
  setStepCompleted : Except String Unit

/-- The structured result dict of `process_user_data`. -/
structure OnboardingResult where
  success : Bool
  error : Option String
  user_id : Option String
  profile_url : Option String
  ai_summary : Option String

/-- A failed `process_user_data` outcome. -/
def onboardingFailure (m : String) : OnboardingResult :=
  { success := false, error := some m, user_id := none,
    profile_url := none, ai_summary := none }

/-- The message of the first collaborator call that raises after the session
step was set to `processing`, following the program order of the `try`
block. -/
def firstFailureAfterProcessing (eff : ProcessEffects) : Option String :=
  match eff.createUser with
  | .error m => some m
  | .ok _ =>
    match eff.setOnboardingUserId with
    | .error m => some m
    | .ok _ =>
      match eff.processSources with
      | .error m => some m
      | .ok _ =>
        match eff.generateFromDocs with
        | .error m => some m
        | .ok _ =>
          match eff.convertExternal with
          | .error m => some m
          | .ok _ =>
            match eff.storeEntries with
            | .error m => some m
            | .ok _ =>
              match eff.generateAiSummary with
              | .error m => some m
              | .ok _ =>
                match eff.markUserCompleted with
                | .error m => some m
                | .ok _ =>
                  match eff.setStepCompleted with
                  | .error m => some m
                  | .ok _ => none

/-- `process_user_data` (lines 201-349). Returns the structured result dict
and the session step after the call (`none` when no session was found).
The step is set to `processing` at line 208 and only reaches `completed` at
line 333, after every collaborator call has succeeded; any exception in
between is caught at lines 347-349 and turned into
`{"success": False, "error": str(e)}` with no further step transition. -/
def processUserData (sess : Option OnboardingSession) (eff : ProcessEffects) :
    OnboardingResult × Option String :=
  match sess with
  | none => (onboardingFailure "Session not found", none)
  | some s =>
    match eff.setStepProcessing with
    | .error m => (onboardingFailure m, some s.step)
    | .ok _ =>
      match s.user_id with
      | none => (onboardingFailure "No user ID in session", some "processing")
      | some _ =>
        match eff.createUser with
        | .error m => (onboardingFailure m, some "processing")
        | .ok user =>
          match eff.setOnboardingUserId with
          | .error m => (onboardingFailure m, some "processing")
          | .ok _ =>
            match eff.processSources with
            | .error m => (onboardingFailure m, some "processing")
            | .ok _ =>
              match eff.generateFromDocs with
              | .error m => (onboardingFailure m, some "processing")
              | .ok _ =>
                match eff.convertExternal with
                | .error m => (onboardingFailure m, some "processing")
                | .ok _ =>
                  match eff.storeEntries with
                  | .error m => (onboardingFailure m, some "processing")
                  | .ok _ =>
                    match eff.generateAiSummary with
                    | .error m => (onboardingFailure m, some "processing")
                    | .ok ai_summary =>
                      match eff.markUserCompleted with
                      | .error m => (onboardingFailure m, some "processing")
                      | .ok _ =>
                        match eff.setStepCompleted with
                        | .error m => (onboardingFailure m, some "processing")
                        | .ok _ =>
                          ({ success := true, error := none,
                             user_id := some user.id,
                             profile_url := some ("/profile/" ++ user.username),
                             ai_summary := some ai_summary },
                           some "completed")

/-- The `entry_data` dict built for each life event at lines 296-302 of
`process_user_data`: the event's start date is serialized under the key
`date`; no `start_date` key is ever written. `getattr(entry, 'content', '')`
is the constant `""` (a `LifeEvent` has no `content` attribute), and the
visibility string is the tier value (line 292-294). -/
def lifeEventEntryData (actual_user_id : String) (entry : LifeEvent) :
    List (String × String) :=
  [("user_id", actual_user_id),
   ("summary", entry.summary),
   ("content", ""),
   ("visibility", visibilityTypeValue entry.visibility.type),
   ("date", isoformat entry.start_date)]

/-! ## Shared lemmas -/

/-- The accumulation loop of `lifeEventsFromJson`, for any accumulator. -/
theorem lifeEventsFromJson_go (vis : VisibilityCategory) (items : List Json) :
    ∀ acc : List LifeEvent,
      items.foldl
        (fun acc j =>
          match candidateToLifeEvent vis j with
          | some e => acc ++ [e]
          | none => acc) acc
      = acc ++ items.filterMap (candidateToLifeEvent vis) := by
  induction items with
  | nil => intro acc; simp
  | cons j rest ih =>
    intro acc
    rcases h : candidateToLifeEvent vis j with _ | e <;>
      simp [h, ih, List.filterMap_cons]

/-- The skip-individually loop is `filterMap` over the candidate
conversion. -/
theorem lifeEventsFromJson_eq_filterMap (vis : VisibilityCategory)
    (items : List Json) :
    lifeEventsFromJson vis items = items.filterMap (candidateToLifeEvent vis) := by
  unfold lifeEventsFromJson
  rw [lifeEventsFromJson_go]
  simp

/-! ## C3 -/

/-- C3: within one parsed candidate array, a malformed item (not an object,
missing `summary` or `start_date`, or with an unparsable `start_date`, i.e.
any item the per-item conversion skips) is dropped individually: deleting it
does not change the extraction result, a well-formed item still yields its
`LifeEvent` even sitting right after a malformed one, and the whole loop is
exactly `filterMap` of the per-item conversion — one malformed item never
discards the rest of the batch. -/
theorem c3_malformed_items_skipped_individually
    (vis : VisibilityCategory) (pre post : List Json) (bad good : Json)
    (e : LifeEvent)
    (hbad : candidateToLifeEvent vis bad = none)
    (hgood : candidateToLifeEvent vis good = some e) :
    lifeEventsFromJson vis (pre ++ bad :: post) = lifeEventsFromJson vis (pre ++ post) ∧
    e ∈ lifeEventsFromJson vis (pre ++ bad :: good :: post) ∧
    lifeEventsFromJson vis (pre ++ post) =
      (pre ++ post).filterMap (candidateToLifeEvent vis) := by
  refine ⟨?_, ?_, lifeEventsFromJson_eq_filterMap vis (pre ++ post)⟩
  · rw [lifeEventsFromJson_eq_filterMap, lifeEventsFromJson_eq_filterMap,
      List.filterMap_append, List.filterMap_append]
    simp [List.filterMap_cons, hbad]
  · rw [lifeEventsFromJson_eq_filterMap]
    rw [List.mem_filterMap]
    exact ⟨good, by simp, hgood⟩

def c3Vis : VisibilityCategory := .mk .good_friends (some "Friends") []

def c3GoodItem : Json :=
  .obj [("summary", .str "Started a project"), ("start_date", .str "2024-03-04")]

def c3BadItem : Json := .obj [("summary", .str "No date here")]

def c3Event : LifeEvent :=
  { visibility := c3Vis, start_date := ⟨2024, 3, 4, 0, 0, 0⟩,
    summary := "Started a project" }

/-- Witness for C3 at a concrete batch. -/
theorem c3_malformed_items_skipped_individually_witness :
    candidateToLifeEvent c3Vis c3BadItem = none ∧
    candidateToLifeEvent c3Vis c3GoodItem = some c3Event ∧
    (lifeEventsFromJson c3Vis ([c3GoodItem] ++ c3BadItem :: [c3GoodItem]) =
       lifeEventsFromJson c3Vis ([c3GoodItem] ++ [c3GoodItem]) ∧
     c3Event ∈ lifeEventsFromJson c3Vis ([c3GoodItem] ++ c3BadItem :: c3GoodItem :: [c3GoodItem]) ∧
     lifeEventsFromJson c3Vis ([c3GoodItem] ++ [c3GoodItem]) =
       ([c3GoodItem] ++ [c3GoodItem]).filterMap (candidateToLifeEvent c3Vis)) :=
  ⟨rfl, rfl,
    c3_malformed_items_skipped_individually c3Vis [c3GoodItem] [c3GoodItem]
      c3BadItem c3GoodItem c3Event rfl rfl⟩

/-! ## C4 -/

def c4Response : String := "\"cannot extract\""

/-- C4 (counterexample): a response that is a lone JSON string containing a
"no data" phrase. No JSON array is recovered by the whole-parse, fenced or
bracket steps, and the phrase is present — yet the ladder returns the parsed
string (the whole-parse step returns whatever JSON value parses), not the
empty list the claim requires. -/
theorem c4_counterexample_nonarray_whole_parse :
    hasNoDataIndicator c4Response = true ∧
    fencedStep c4Response = none ∧
    bracketStep c4Response = none ∧
    jsonParse (pyStrip c4Response) = some (.str "cannot extract") ∧
    extractJsonFromResponse c4Response = some (.str "cannot extract") ∧
    extractJsonFromResponse c4Response ≠ some (.arr []) := by
  refine ⟨rfl, rfl, rfl, rfl, rfl, ?_⟩
  intro h
  rw [show extractJsonFromResponse c4Response = some (.str "cannot extract") from rfl] at h
  simp at h

/-- C4 (amended): restricted to responses whose whole text does not parse as
any JSON value — when additionally the fenced and bracket steps recover
nothing and a "no data" phrase is present, the ladder returns the empty list
(a valid empty result, distinct from the `none` of unusable responses). -/
theorem c4_no_data_phrase_returns_empty_list (r : String)
    (hwhole : jsonParse (pyStrip r) = none)
    (hfence : fencedStep r = none)
    (hbracket : bracketStep r = none)
    (hphrase : hasNoDataIndicator r = true) :
    extractJsonFromResponse r = some (.arr []) := by
  unfold extractJsonFromResponse
  rw [hwhole, hfence, hbracket, hphrase]
  split <;> rfl

/-- Witness for the amended C4 at a concrete phrase-bearing response. -/
theorem c4_no_data_phrase_returns_empty_list_witness :
    jsonParse (pyStrip "I cannot extract any dated events from this.") = none ∧
    fencedStep "I cannot extract any dated events from this." = none ∧
    bracketStep "I cannot extract any dated events from this." = none ∧
    hasNoDataIndicator "I cannot extract any dated events from this." = true ∧
    extractJsonFromResponse "I cannot extract any dated events from this." =
      some (.arr []) :=
  ⟨rfl, rfl, rfl, rfl,
    c4_no_data_phrase_returns_empty_list _ rfl rfl rfl rfl⟩

/-! ## C5 -/

def c5Response : String :=
  "Looking at the content, I found no specific dates mentioned.\n[]"

/-- C5: for the spec scenario response, the whole-parse and fenced steps
fail, the bracket-substring scan (attempted before the "no data"-phrase
check, which would also have applied) recovers `[]`, and the ladder returns
the empty list — a valid empty result, not a failure. -/
theorem c5_bracket_scan_recovers_empty_list :
    jsonParse (pyStrip c5Response) = none ∧
    fencedStep c5Response = none ∧
    bracketStep c5Response = some (.arr []) ∧
    hasNoDataIndicator c5Response = true ∧
    extractJsonFromResponse c5Response = some (.arr []) :=
  ⟨rfl, rfl, rfl, rfl, rfl⟩

/-! ## C6 -/

/-- C6: constructing a `VisibilityCategory` with `tier = custom` and no name
succeeds — `models.py` declares no validator, so nothing rejects it at
construction time (the claim's required `InvalidVisibility` rejection does
not exist). -/
theorem c6_custom_without_name_accepted :
    mkVisibilityCategory "custom" none [] = .ok (.mk .custom none []) ∧
    (VisibilityCategory.mk .custom none []).type = .custom ∧
    (VisibilityCategory.mk .custom none []).name = none :=
  ⟨rfl, rfl, rfl⟩

/-! ## C2 -/

def c2GithubData : GithubData :=
  { profile := ⟨none⟩, commit_activity := ⟨12, []⟩, summaryInfo := ⟨5⟩ }

def c2Now : DateTime := ⟨2024, 6, 15, 10, 0, 0⟩

def c2Response : String := "The recent activity shows steady work."

/-- C2: for an unusable LLM response (the ladder returns `None`), the GitHub
events extraction returns the empty list — it never invokes
`_create_fallback_github_entries`, even though that fallback, applied to raw
data with `commits_last_30_days = 12` (and no language data), would produce
exactly one coding-activity event whose summary embeds `"12"`. The code
defines the fallback the claim describes but the events path never calls
it. -/
theorem c2_events_fallback_never_invoked :
    extractJsonFromResponse c2Response = none ∧
    generateGithubLifeEvents c2Response [] = [] ∧
    (createFallbackGithubEntries c2GithubData c2Now []).map LifeEvent.summary =
      ["Been actively coding lately with " ++ "12" ++
        " commits in the past month. Working on some interesting projects!"] ∧
    (createFallbackGithubEntries c2GithubData c2Now []).length = 1 ∧
    generateGithubLifeEvents c2Response [] ≠
      createFallbackGithubEntries c2GithubData c2Now [] := by
  refine ⟨rfl, rfl, rfl, rfl, ?_⟩
  intro h
  exact absurd (congrArg List.length h)
    (by decide :
      ¬ (generateGithubLifeEvents c2Response []).length =
        (createFallbackGithubEntries c2GithubData c2Now []).length)

/-! ## C1 -/

def c1EntryTier : VisibilityCategory :=
  .mk .good_friends none [.mk .acquaintances none []]

def c1Entry : Json :=
  .obj [("event_id", .str "ev1"), ("user_id", .str "u1"),
        ("summary", .str "Hiking trip"),
        ("start_date", .str "2024-06-15T00:00:00"),
        ("end_date", .null),
        ("visibility",
          .obj [("type", .str "good_friends"), ("name", .null),
                ("also_visible",
                  .arr [.obj [("type", .str "acquaintances"), ("name", .null),
                              ("also_visible", .arr [])]])]),
        ("created_at", .str "2024-06-15T00:00:00"),
        ("updated_at", .str "2024-06-15T00:00:00")]

/-- C1 (counterexample): a stored event tagged `good_friends` with
`also_visible = [acquaintances]`, inside the queried window, queried with
`visibility_levels = ["acquaintances"]`. The spec's recursive resolution
grants visibility to the acquaintances-only viewer, yet the query returns
nothing: `get_life_events_by_date_range` compares only the top-level
visibility type and never consults `also_visible`. -/
theorem c1_counterexample_also_visible_ignored :
    specIsVisibleTo c1EntryTier [.acquaintances] = true ∧
    entryStartDate c1Entry = some ⟨2024, 6, 15, 0, 0, 0⟩ ∧
    dtLe ⟨2024, 6, 1, 0, 0, 0⟩ ⟨2024, 6, 15, 0, 0, 0⟩ = true ∧
    dtLe ⟨2024, 6, 15, 0, 0, 0⟩ ⟨2024, 6, 30, 0, 0, 0⟩ = true ∧
    getLifeEventsByDateRange [c1Entry] ⟨2024, 6, 1, 0, 0, 0⟩ ⟨2024, 6, 30, 0, 0, 0⟩
      ["acquaintances"] = [] :=
  ⟨rfl, rfl, rfl, rfl, rfl⟩

/-- C1 (amended): an entry is selected by the visibility-filtered query iff
it is stored, its start date parses and lies in the window, and — when
`visibility_levels` is nonempty — its top-level visibility type is a member
of the requested levels; tiers reachable through `also_visible` play no
role. -/
theorem c1_query_selects_by_top_level_tier
    (events : List Json) (s e : DateTime) (levels : List String) (x : Json) :
    x ∈ getLifeEventsByDateRange events s e levels ↔
      x ∈ events ∧ matchesQuery s e levels x = true := by
  unfold getLifeEventsByDateRange
  rw [List.Perm.mem_iff (List.perm_insertionSort _ _), List.mem_filter]

/-! ## C10 -/

/-- C10: the orchestrator serializes the event's own start date under the
key `date`, writes no `start_date` key, and `create_life_event` therefore
persists `start_date = datetime.now().isoformat()` — the wall clock of
persistence, not the extracted event's date. -/
theorem c10_persisted_start_date_is_wall_clock
    (uid : String) (ev : LifeEvent) (event_id : String) (now : DateTime)
    (huid : uid ≠ "") :
    dictGet (lifeEventEntryData uid ev) "start_date" = none ∧
    dictGet (lifeEventEntryData uid ev) "date" = some (isoformat ev.start_date) ∧
    createLifeEvent (lifeEventEntryData uid ev) event_id now =
      .ok { event_id := event_id, user_id := uid, summary := ev.summary,
            start_date := isoformat now, end_date := none,
            visibility := visibilityTypeValue ev.visibility.type,
            created_at := isoformat now, updated_at := isoformat now } := by
  refine ⟨rfl, rfl, ?_⟩
  simp [createLifeEvent, lifeEventEntryData, dictGet, String.isEmpty_iff, huid]

def c10Event : LifeEvent :=
  { visibility := .mk .public none [], start_date := ⟨2023, 5, 6, 7, 8, 9⟩,
    summary := "Ran a marathon" }

/-- Witness for C10: the persisted record of a 2023 event carries the 2024
persistence wall clock as its `start_date`. -/
theorem c10_persisted_start_date_is_wall_clock_witness :
    ("u1" : String) ≠ "" ∧
    (dictGet (lifeEventEntryData "u1" c10Event) "start_date" = none ∧
     dictGet (lifeEventEntryData "u1" c10Event) "date" =
       some (isoformat c10Event.start_date) ∧
     createLifeEvent (lifeEventEntryData "u1" c10Event) "ev42" ⟨2024, 1, 2, 3, 4, 5⟩ =
       .ok { event_id := "ev42", user_id := "u1", summary := c10Event.summary,
             start_date := isoformat ⟨2024, 1, 2, 3, 4, 5⟩, end_date := none,
             visibility := visibilityTypeValue c10Event.visibility.type,
             created_at := isoformat ⟨2024, 1, 2, 3, 4, 5⟩,
             updated_at := isoformat ⟨2024, 1, 2, 3, 4, 5⟩ }) :=
  ⟨by decide,
   c10_persisted_start_date_is_wall_clock "u1" c10Event "ev42" ⟨2024, 1, 2, 3, 4, 5⟩
     (by decide)⟩

/-! ## C9 -/

/-- C9: once the session step has been set to `processing`, any collaborator
exception inside `process_user_data` yields the structured failure
`{"success": False, "error": <underlying message>}` and leaves the session
step at `processing` — never `completed`, so the step stays retryable. -/
theorem c9_failure_leaves_session_processing
    (s : OnboardingSession) (uid : String) (eff : ProcessEffects) (m : String)
    (hstep : eff.setStepProcessing = .ok ())
    (huid : s.user_id = some uid)
    (hfail : firstFailureAfterProcessing eff = some m) :
    processUserData (some s) eff = (onboardingFailure m, some "processing") := by
  rcases eff with ⟨e0, e1, e2, e3, e4, e5, e6, e7, e8, e9⟩
  cases hstep
  simp only [firstFailureAfterProcessing] at hfail
  simp only [processUserData, huid]
  cases e1 with
  | error m1 => simp_all
  | ok v1 =>
    cases e2 with
    | error m2 => simp_all
    | ok v2 =>
      cases e3 with
      | error m3 => simp_all
      | ok v3 =>
        cases e4 with
        | error m4 => simp_all
        | ok v4 =>
          cases e5 with
          | error m5 => simp_all
          | ok v5 =>
            cases e6 with
            | error m6 => simp_all
            | ok v6 =>
              cases e7 with
              | error m7 => simp_all
              | ok v7 =>
                cases e8 with
                | error m8 => simp_all
                | ok v8 =>
                  cases e9 with
                  | error m9 => simp_all
                  | ok v9 => simp_all

def c9Session : OnboardingSession := { user_id := some "u7", step := "visibility_configured" }

def c9Effects : ProcessEffects :=
  { setStepProcessing := .ok (),
    createUser := .ok { id := "u7", username := "alice", full_name := "Alice", bio := "" },
    setOnboardingUserId := .ok (),
    processSources := .ok (),
    generateFromDocs := .ok ([], []),
    convertExternal := .ok ([], []),
    storeEntries := .error "StorageError: disk full",
    generateAiSummary := .ok "summary",
    markUserCompleted := .ok (),
    setStepCompleted := .ok () }

/-- Witness for C9: a storage failure while persisting entries. -/
theorem c9_failure_leaves_session_processing_witness :
    c9Effects.setStepProcessing = .ok () ∧
    c9Session.user_id = some "u7" ∧
    firstFailureAfterProcessing c9Effects = some "StorageError: disk full" ∧
    processUserData (some c9Session) c9Effects =
      (onboardingFailure "StorageError: disk full", some "processing") :=
  ⟨rfl, rfl, rfl,
   c9_failure_leaves_session_processing c9Session "u7" c9Effects
     "StorageError: disk full" rfl rfl rfl⟩

/-! ## C7 and C8 -/

/-- The empty-selection fallback newsletter always contains the quiet-period
sentence. -/
theorem createFallbackNewsletter_nil_quiet (u : UserData) (cfg : NewsletterConfig)
    (drt : String) :
    ∃ pre post,
      createFallbackNewsletter u [] cfg drt = pre ++ ("A Quiet Period" ++ post) := by
  refine ⟨("# " ++ (if cfg.name.isEmpty then "Life Update" else cfg.name) ++
      "\n\n## Update from " ++ u.full_name.getD "Friend" ++ "\n*Period: " ++ drt ++
      "*\n\n") ++ "## ",
    "\n\nNo major events to report during this period, but " ++
      u.full_name.getD "Friend" ++ " is still here and doing well!\n\n" ++
      "---\n\n*This newsletter was generated automatically. If you have any questions, please reach out!*\n",
    ?_⟩
  simp only [createFallbackNewsletter, List.isEmpty_nil, if_true]
  rw [show ("## A Quiet Period\n\nNo major events to report during this period, but " : String) =
    "## " ++ ("A Quiet Period" ++ "\n\nNo major events to report during this period, but ") from rfl]
  simp only [String.append_assoc]

instance : IsTotal Json (fun a b => sortKeyOfEntry b ≤ sortKeyOfEntry a) :=
  ⟨fun a b => Nat.le_total (sortKeyOfEntry b) (sortKeyOfEntry a)⟩

instance : IsTrans Json (fun a b => sortKeyOfEntry b ≤ sortKeyOfEntry a) :=
  ⟨fun _ _ _ hab hbc => Nat.le_trans hbc hab⟩

set_option maxRecDepth 8192 in
/-- C7: with the user present and zero life events matching the trailing
periodicity window under the configured visibility filter,
`generate_newsletter` succeeds with `events_count = 0`; on the LLM-failure
path its content is the fallback containing the quiet-period acknowledgment,
and on the LLM path the system prompt carries the explicit
quiet-period-acknowledgment instruction; `success = false` occurs exactly
when the user does not exist, never for the absence of events. -/
theorem c7_zero_events_is_success
    (users : List (String × UserData)) (events : List Json) (user_id uid2 : String)
    (cfg : NewsletterConfig) (now : DateTime)
    (llm llm2 : String → String → Option String) (u : UserData)
    (hu : lookupUser users user_id = some u)
    (hq : getLifeEventsByDateRange events (dtSubHours now cfg.periodicity) now
        (cfg.visibility.map (fun vc => visibilityTypeValue vc.type)) = []) :
    (generateNewsletter users events user_id cfg now llm).success = true ∧
    (generateNewsletter users events user_id cfg now llm).events_count = 0 ∧
    (∃ pre post,
      (generateNewsletter users events user_id cfg now (fun _ _ => none)).content =
        some (pre ++ ("A Quiet Period" ++ post))) ∧
    strHasSub newsletterSystemPrompt "acknowledging the quiet period" = true ∧
    ((generateNewsletter users events uid2 cfg now llm2).success = false ↔
      lookupUser users uid2 = none) := by
  refine ⟨?_, ?_, ?_, rfl, ?_⟩
  · simp only [generateNewsletter, hu]
  · simp only [generateNewsletter, hu, hq, List.length_nil]
  · obtain ⟨pre, post, hsplit⟩ :=
      createFallbackNewsletter_nil_quiet u cfg
        (strftimeBdY (dtSubHours now cfg.periodicity) ++ " to " ++ strftimeBdY now)
    refine ⟨pre, post, ?_⟩
    simp only [generateNewsletter, hu, hq, generateContentWithLlm]
    rw [hsplit]
  · rcases hlu : lookupUser users uid2 with _ | u2 <;>
      simp [generateNewsletter, hlu]

def c7Users : List (String × UserData) := [("u1", { full_name := some "Alice", bio := none })]

def c7Cfg : NewsletterConfig :=
  { instructions := none, periodicity := 24, start_date := none,
    visibility := [.mk .good_friends none []], name := "Weekly" }

/-- Witness for C7: an existing user with an empty event store. -/
theorem c7_zero_events_is_success_witness :
    lookupUser c7Users "u1" = some { full_name := some "Alice", bio := none } ∧
    getLifeEventsByDateRange [] (dtSubHours ⟨2024, 1, 2, 3, 4, 5⟩ c7Cfg.periodicity)
      ⟨2024, 1, 2, 3, 4, 5⟩
      (c7Cfg.visibility.map (fun vc => visibilityTypeValue vc.type)) = [] ∧
    ((generateNewsletter c7Users [] "u1" c7Cfg ⟨2024, 1, 2, 3, 4, 5⟩
        (fun _ _ => none)).success = true ∧
     (generateNewsletter c7Users [] "u1" c7Cfg ⟨2024, 1, 2, 3, 4, 5⟩
        (fun _ _ => none)).events_count = 0 ∧
     (∃ pre post,
       (generateNewsletter c7Users [] "u1" c7Cfg ⟨2024, 1, 2, 3, 4, 5⟩
          (fun _ _ => none)).content = some (pre ++ ("A Quiet Period" ++ post))) ∧
     strHasSub newsletterSystemPrompt "acknowledging the quiet period" = true ∧
     ((generateNewsletter c7Users [] "nobody" c7Cfg ⟨2024, 1, 2, 3, 4, 5⟩
        (fun _ _ => none)).success = false ↔ lookupUser c7Users "nobody" = none)) :=
  ⟨rfl, rfl,
   c7_zero_events_is_success c7Users [] "u1" "nobody" c7Cfg ⟨2024, 1, 2, 3, 4, 5⟩
     (fun _ _ => none) (fun _ _ => none) { full_name := some "Alice", bio := none }
     rfl rfl⟩

/-- C8: the LLM-failure fallback renders the exact event list the query
returned — the same single list whose rendering is embedded in the user
prompt handed to the LLM (exhibited by an echo oracle) — and that list is a
permutation of the filtered entries, sorted newest-first; for the empty
selection the fallback emits the quiet-period sentence instead of an event
list. -/
theorem c8_fallback_uses_same_sorted_events
    (users : List (String × UserData)) (events : List Json) (user_id : String)
    (cfg : NewsletterConfig) (now : DateTime) (u : UserData) (llmText : String)
    (hu : lookupUser users user_id = some u) :
    (generateNewsletter users events user_id cfg now (fun _ _ => none)).content =
      some (createFallbackNewsletter u
        (getLifeEventsByDateRange events (dtSubHours now cfg.periodicity) now
          (cfg.visibility.map (fun vc => visibilityTypeValue vc.type)))
        cfg (strftimeBdY (dtSubHours now cfg.periodicity) ++ " to " ++ strftimeBdY now)) ∧
    (generateNewsletter users events user_id cfg now
        (fun _ usr => some (llmText ++ usr))).content =
      some (pyStrip (llmText ++ newsletterUserPrompt u
        (getLifeEventsByDateRange events (dtSubHours now cfg.periodicity) now
          (cfg.visibility.map (fun vc => visibilityTypeValue vc.type)))
        cfg (strftimeBdY (dtSubHours now cfg.periodicity) ++ " to " ++ strftimeBdY now))) ∧
    (getLifeEventsByDateRange events (dtSubHours now cfg.periodicity) now
      (cfg.visibility.map (fun vc => visibilityTypeValue vc.type))).Perm
      (events.filter (matchesQuery (dtSubHours now cfg.periodicity) now
        (cfg.visibility.map (fun vc => visibilityTypeValue vc.type)))) ∧
    List.Sorted (fun a b => sortKeyOfEntry b ≤ sortKeyOfEntry a)
      (getLifeEventsByDateRange events (dtSubHours now cfg.periodicity) now
        (cfg.visibility.map (fun vc => visibilityTypeValue vc.type))) ∧
    (∃ pre post, createFallbackNewsletter u [] cfg
        (strftimeBdY (dtSubHours now cfg.periodicity) ++ " to " ++ strftimeBdY now) =
      pre ++ ("A Quiet Period" ++ post)) := by
  refine ⟨?_, ?_, ?_, ?_, createFallbackNewsletter_nil_quiet u cfg _⟩
  · simp only [generateNewsletter, hu, generateContentWithLlm]
  · simp only [generateNewsletter, hu, generateContentWithLlm]
  · exact List.perm_insertionSort _ _
  · exact List.sorted_insertionSort _ _

def c8Users : List (String × UserData) :=
  [("u1", { full_name := some "Bob", bio := some "Hi" })]

def c8Cfg : NewsletterConfig :=
  { instructions := some "Be brief", periodicity := 48, start_date := none,
    visibility := [.mk .good_friends none []], name := "Digest" }

def c8Events : List Json :=
  [.obj [("summary", .str "Early event"),
         ("start_date", .str "2024-06-14T00:00:00"),
         ("visibility", .str "good_friends")],
   .obj [("summary", .str "Later event"),
         ("start_date", .str "2024-06-14T12:00:00"),
         ("visibility", .str "good_friends")]]

/-- Witness for C8 on a two-event store. -/
theorem c8_fallback_uses_same_sorted_events_witness :
    lookupUser c8Users "u1" = some { full_name := some "Bob", bio := some "Hi" } ∧
    (generateNewsletter c8Users c8Events "u1" c8Cfg ⟨2024, 6, 15, 0, 0, 0⟩
        (fun _ _ => none)).content =
      some (createFallbackNewsletter { full_name := some "Bob", bio := some "Hi" }
        (getLifeEventsByDateRange c8Events
          (dtSubHours ⟨2024, 6, 15, 0, 0, 0⟩ c8Cfg.periodicity) ⟨2024, 6, 15, 0, 0, 0⟩
          (c8Cfg.visibility.map (fun vc => visibilityTypeValue vc.type)))
        c8Cfg
        (strftimeBdY (dtSubHours ⟨2024, 6, 15, 0, 0, 0⟩ c8Cfg.periodicity) ++ " to " ++
          strftimeBdY ⟨2024, 6, 15, 0, 0, 0⟩)) ∧
    (getLifeEventsByDateRange c8Events
      (dtSubHours ⟨2024, 6, 15, 0, 0, 0⟩ c8Cfg.periodicity) ⟨2024, 6, 15, 0, 0, 0⟩
      (c8Cfg.visibility.map (fun vc => visibilityTypeValue vc.type))).Perm
      (c8Events.filter (matchesQuery (dtSubHours ⟨2024, 6, 15, 0, 0, 0⟩ c8Cfg.periodicity)
        ⟨2024, 6, 15, 0, 0, 0⟩
        (c8Cfg.visibility.map (fun vc => visibilityTypeValue vc.type)))) ∧
    List.Sorted (fun a b => sortKeyOfEntry b ≤ sortKeyOfEntry a)
      (getLifeEventsByDateRange c8Events
        (dtSubHours ⟨2024, 6, 15, 0, 0, 0⟩ c8Cfg.periodicity) ⟨2024, 6, 15, 0, 0, 0⟩
        (c8Cfg.visibility.map (fun vc => visibilityTypeValue vc.type))) :=
  ⟨rfl,
   (c8_fallback_uses_same_sorted_events c8Users c8Events "u1" c8Cfg
     ⟨2024, 6, 15, 0, 0, 0⟩ { full_name := some "Bob", bio := some "Hi" } "PRE" rfl).1,
   (c8_fallback_uses_same_sorted_events c8Users c8Events "u1" c8Cfg
     ⟨2024, 6, 15, 0, 0, 0⟩ { full_name := some "Bob", bio := some "Hi" } "PRE" rfl).2.2.1,
   (c8_fallback_uses_same_sorted_events c8Users c8Events "u1" c8Cfg
     ⟨2024, 6, 15, 0, 0, 0⟩ { full_name := some "Bob", bio := some "Hi" } "PRE" rfl).2.2.2.1⟩
